import Mathlib

/-!
Verification of the vtable-layout subsystem header
(`include/clang/AST/VTableBuilder.h`) and of the nullability-pragma
conformance fixture (`test/SemaObjCXX/Inputs/nullability-pragmas-1.h`).

The C++ code is shallowly embedded: machine words are `Nat` values taken
modulo `2^64`, signed 64-bit reads go through an explicit two's-complement
decode, declaration pointers are their numeric address values, and every
`assert` becomes an `Option` guard (`none` = the precondition check fails).
-/

/-- Two's-complement encoding: the 64-bit word holding a signed value
(models the C++ conversion `uint64_t(x)` of an `int64_t x`). -/
def wordOfInt (z : Int) : Nat := (z % (2 ^ 64 : Int)).toNat

/-- Two's-complement decode: read a 64-bit word as a signed `int64_t`. -/
def intOfWord (n : Nat) : Int :=
  if n < 2 ^ 63 then (n : Int) else (n : Int) - 2 ^ 64

/-- `VTableComponent::Kind`: the 8 slot-kind tags, numeric values 0-7. -/
inductive VTableComponent.Kind where
  | CK_VCallOffset
  | CK_VBaseOffset
  | CK_OffsetToTop
  | CK_RTTI
  | CK_FunctionPointer
  | CK_CompleteDtorPointer
  | CK_DeletingDtorPointer
  | CK_UnusedFunctionPointer
deriving DecidableEq

/-- Numeric value of a kind tag (the enum's value, in declaration order). -/
def VTableComponent.Kind.toNat : VTableComponent.Kind → Nat
  | .CK_VCallOffset => 0
  | .CK_VBaseOffset => 1
  | .CK_OffsetToTop => 2
  | .CK_RTTI => 3
  | .CK_FunctionPointer => 4
  | .CK_CompleteDtorPointer => 5
  | .CK_DeletingDtorPointer => 6
  | .CK_UnusedFunctionPointer => 7

/-- Decode a 3-bit tag back to a kind (the C cast `(Kind)(Value & 0x7)`). -/
def VTableComponent.Kind.fromTag (n : Nat) : VTableComponent.Kind :=
  match n with
  | 0 => .CK_VCallOffset
  | 1 => .CK_VBaseOffset
  | 2 => .CK_OffsetToTop
  | 3 => .CK_RTTI
  | 4 => .CK_FunctionPointer
  | 5 => .CK_CompleteDtorPointer
  | 6 => .CK_DeletingDtorPointer
  | _ => .CK_UnusedFunctionPointer

/-- `VTableComponent::isDestructorKind(Kind)`. -/
def VTableComponent.isDestructorKindOf (k : VTableComponent.Kind) : Bool :=
  k == .CK_CompleteDtorPointer || k == .CK_DeletingDtorPointer

/-- `VTableComponent::isUsedFunctionPointerKind(Kind)`. -/
def VTableComponent.isUsedFunctionPointerKindOf (k : VTableComponent.Kind) : Bool :=
  k == .CK_FunctionPointer || VTableComponent.isDestructorKindOf k

/-- `VTableComponent::isFunctionPointerKind(Kind)`. -/
def VTableComponent.isFunctionPointerKindOf (k : VTableComponent.Kind) : Bool :=
  VTableComponent.isUsedFunctionPointerKindOf k || k == .CK_UnusedFunctionPointer

/-- `VTableComponent::isRTTIKind(Kind)`. -/
def VTableComponent.isRTTIKindOf (k : VTableComponent.Kind) : Bool :=
  k == .CK_RTTI

/-- A single vtable slot: one 64-bit word (`int64_t Value`), stored here as
its raw bit pattern.  The kind tag lives in the low 3 bits. -/
structure VTableComponent where
  Value : Nat
deriving DecidableEq

/-- The private constructor `VTableComponent(Kind, CharUnits)`: an offset
slot.  The asserts (kind must be one of the three offset kinds, offset in
`[-2^56, 2^56)`) are modelled by the `Option` guard.  The stored word is
`(uint64_t(offset) << 3) | kind`, with `uint64_t` wraparound. -/
def VTableComponent.ofOffset (ComponentKind : VTableComponent.Kind) (Offset : Int) :
    Option VTableComponent :=
  if (ComponentKind = .CK_VCallOffset ∨ ComponentKind = .CK_VBaseOffset ∨
      ComponentKind = .CK_OffsetToTop) ∧
     Offset < 2 ^ 56 ∧ -(2 ^ 56) ≤ Offset then
    some ⟨(wordOfInt Offset <<< 3) % 2 ^ 64 ||| ComponentKind.toNat⟩
  else none

/-- The private constructor `VTableComponent(Kind, uintptr_t)`: a
pointer-carrying slot.  The asserts (kind must be RTTI, a function-pointer
kind, or a vcall/vbase placeholder; pointer 8-byte aligned) are modelled by
the `Option` guard.  The stored word is `Ptr | kind`. -/
def VTableComponent.ofPointer (ComponentKind : VTableComponent.Kind) (Ptr : Nat) :
    Option VTableComponent :=
  if (VTableComponent.isRTTIKindOf ComponentKind ||
      VTableComponent.isFunctionPointerKindOf ComponentKind ||
      ComponentKind == .CK_VCallOffset || ComponentKind == .CK_VBaseOffset) = true ∧
     Ptr &&& 7 = 0 then
    some ⟨Ptr ||| ComponentKind.toNat⟩
  else none

/-- `getKind`: decode the low 3 bits of the word. -/
def VTableComponent.getKind (c : VTableComponent) : VTableComponent.Kind :=
  VTableComponent.Kind.fromTag (c.Value &&& 7)

/-- The private accessor `getOffset`: read the word as a signed `int64_t`
and arithmetically shift right by 3 (floor division by 8). -/
def VTableComponent.getOffset (c : VTableComponent) : Option Int :=
  if c.getKind = .CK_VCallOffset ∨ c.getKind = .CK_VBaseOffset ∨
     c.getKind = .CK_OffsetToTop then
    some ((intOfWord c.Value).fdiv 8)
  else none

/-- The private accessor `getPointer`: `Value & ~7ULL` (mask off the tag). -/
def VTableComponent.getPointer (c : VTableComponent) : Option Nat :=
  if c.getKind = .CK_RTTI ∨ c.getKind = .CK_VCallOffset ∨
     c.getKind = .CK_VBaseOffset ∨
     VTableComponent.isFunctionPointerKindOf c.getKind = true then
    some (c.Value &&& (2 ^ 64 - 8))
  else none

/-- `MakeVCallOffset`. -/
def VTableComponent.MakeVCallOffset (Offset : Int) : Option VTableComponent :=
  VTableComponent.ofOffset .CK_VCallOffset Offset

/-- `MakeVCall`: vcall placeholder carrying a class-declaration pointer. -/
def VTableComponent.MakeVCall (RD : Nat) : Option VTableComponent :=
  VTableComponent.ofPointer .CK_VCallOffset RD

/-- `MakeVBaseOffset`. -/
def VTableComponent.MakeVBaseOffset (Offset : Int) : Option VTableComponent :=
  VTableComponent.ofOffset .CK_VBaseOffset Offset

/-- `MakeVBase`: vbase placeholder carrying a class-declaration pointer. -/
def VTableComponent.MakeVBase (RD : Nat) : Option VTableComponent :=
  VTableComponent.ofPointer .CK_VBaseOffset RD

/-- `MakeOffsetToTop`. -/
def VTableComponent.MakeOffsetToTop (Offset : Int) : Option VTableComponent :=
  VTableComponent.ofOffset .CK_OffsetToTop Offset

/-- `MakeRTTI`. -/
def VTableComponent.MakeRTTI (RD : Nat) : Option VTableComponent :=
  VTableComponent.ofPointer .CK_RTTI RD

/-- `getVCallOffset` (asserts the kind, then reads the offset). -/
def VTableComponent.getVCallOffset (c : VTableComponent) : Option Int :=
  if c.getKind = .CK_VCallOffset then c.getOffset else none

/-- `getVCall` (asserts the kind, then reads the placeholder pointer). -/
def VTableComponent.getVCall (c : VTableComponent) : Option Nat :=
  if c.getKind = .CK_VCallOffset then c.getPointer else none

/-- `getVBaseOffset`. -/
def VTableComponent.getVBaseOffset (c : VTableComponent) : Option Int :=
  if c.getKind = .CK_VBaseOffset then c.getOffset else none

/-- `getVBase`. -/
def VTableComponent.getVBase (c : VTableComponent) : Option Nat :=
  if c.getKind = .CK_VBaseOffset then c.getPointer else none

/-- `getOffsetToTop`. -/
def VTableComponent.getOffsetToTop (c : VTableComponent) : Option Int :=
  if c.getKind = .CK_OffsetToTop then c.getOffset else none

/-- `getRTTIDecl`. -/
def VTableComponent.getRTTIDecl (c : VTableComponent) : Option Nat :=
  if VTableComponent.isRTTIKindOf c.getKind then c.getPointer else none

/- ### Bit-arithmetic helper lemmas about the packed word -/

/-- `x & 0x7` is `x mod 8`. -/
theorem and7_eq_mod8 (x : Nat) : x &&& 7 = x % 8 := by
  have h := Nat.and_pow_two_sub_one_eq_mod x 3
  norm_num at h
  exact h

/-- Or-ing a tag below 8 into a word whose low 3 bits are clear is addition. -/
theorem or_eq_add_of_low3 (m r : Nat) (hm : m % 8 = 0) (hr : r < 8) :
    m ||| r = m + r := by
  have h1 : (m ||| r) % 8 = r := by
    have hd := Nat.and_distrib_right m r 7
    rw [and7_eq_mod8, and7_eq_mod8, and7_eq_mod8, hm, Nat.zero_or] at hd
    omega
  have h1r : r % 8 = r := Nat.mod_eq_of_lt hr
  have h2 : (m ||| r) / 8 = m / 8 := by
    have e1 : ∀ x : Nat, x / 8 = x / 2 / 2 / 2 := by intro x; omega
    rw [e1 (m ||| r), Nat.or_div_two, Nat.or_div_two, Nat.or_div_two]
    have hr0 : r / 2 / 2 / 2 = 0 := by omega
    rw [hr0, Nat.or_zero, ← e1]
  omega

/-- Masking the tag back out of `word | tag` recovers the aligned word. -/
theorem or_and_mask_eq (p r : Nat) (hp8 : p % 8 = 0) (hr : r < 8)
    (hp : p < 2 ^ 64) : (p ||| r) &&& (2 ^ 64 - 8) = p := by
  apply Nat.eq_of_testBit_eq
  intro i
  rw [Nat.testBit_and, Nat.testBit_or]
  have hmask : (2 ^ 64 - 8 : Nat) = (2 ^ 61 - 1) <<< 3 := by
    rw [Nat.shiftLeft_eq]; norm_num
  rw [hmask, Nat.testBit_shiftLeft, Nat.testBit_two_pow_sub_one]
  have hp3 : p = (p / 8) <<< 3 := by rw [Nat.shiftLeft_eq]; omega
  have hpbit : ∀ j : Nat, p.testBit j = (decide (j ≥ 3) && (p / 8).testBit (j - 3)) := by
    intro j
    conv_lhs => rw [hp3]
    rw [Nat.testBit_shiftLeft]
  by_cases h3 : 3 ≤ i
  · by_cases h64 : i < 64
    · have hrbit : r.testBit i = false := by
        apply Nat.testBit_lt_two_pow
        calc r < 8 := hr
        _ = 2 ^ 3 := by norm_num
        _ ≤ 2 ^ i := Nat.pow_le_pow_right (by norm_num) h3
      have hi61 : i - 3 < 61 := by omega
      simp [hrbit, h3, hi61]
    · have hibig : 2 ^ 64 ≤ 2 ^ i := Nat.pow_le_pow_right (by norm_num) (by omega)
      have hpbiti : p.testBit i = false := Nat.testBit_lt_two_pow (by omega)
      have hrbit : r.testBit i = false := Nat.testBit_lt_two_pow (by omega)
      have hi61 : ¬(i - 3 < 61) := by omega
      simp [hpbiti, hrbit, hi61]
  · have hpbiti : p.testBit i = false := by
      rw [hpbit i]
      simp [h3]
    simp [hpbiti, h3]

/-- Every kind tag fits in 3 bits. -/
theorem VTableComponent.Kind.toNat_lt (k : VTableComponent.Kind) : k.toNat < 8 := by
  cases k <;> decide

/-- Tag round-trip on kinds. -/
theorem VTableComponent.Kind.fromTag_toNat (k : VTableComponent.Kind) :
    VTableComponent.Kind.fromTag k.toNat = k := by
  cases k <;> rfl

/-- A word with clear low bits or-ed with a kind tag decodes back to that kind. -/
theorem getKind_or_tag (w : Nat) (k : VTableComponent.Kind) (hw : w % 8 = 0) :
    (⟨w ||| k.toNat⟩ : VTableComponent).getKind = k := by
  have hkt := VTableComponent.Kind.toNat_lt k
  show VTableComponent.Kind.fromTag ((w ||| k.toNat) &&& 7) = k
  rw [or_eq_add_of_low3 w k.toNat hw hkt, and7_eq_mod8]
  have h : (w + k.toNat) % 8 = k.toNat := by omega
  rw [h, VTableComponent.Kind.fromTag_toNat]

/-- Pointer-mode round trip: for an accepted kind and an 8-byte-aligned
pointer below `2^64`, construction succeeds, the kind reads back, and
`getPointer` recovers the pointer exactly. -/
theorem ofPointer_roundtrip (k : VTableComponent.Kind) (p : Nat)
    (hk : (VTableComponent.isRTTIKindOf k || VTableComponent.isFunctionPointerKindOf k ||
           k == .CK_VCallOffset || k == .CK_VBaseOffset) = true)
    (hal : p &&& 7 = 0) (hp : p < 2 ^ 64) :
    ∃ c, VTableComponent.ofPointer k p = some c ∧ c.getKind = k ∧ c.getPointer = some p := by
  have hkt := VTableComponent.Kind.toNat_lt k
  have hp8 : p % 8 = 0 := by rwa [and7_eq_mod8] at hal
  have hgk : (⟨p ||| k.toNat⟩ : VTableComponent).getKind = k := getKind_or_tag p k hp8
  refine ⟨⟨p ||| k.toNat⟩, ?_, hgk, ?_⟩
  · unfold VTableComponent.ofPointer
    rw [if_pos ⟨hk, hal⟩]
  · have hk' : k = .CK_RTTI ∨ k = .CK_VCallOffset ∨ k = .CK_VBaseOffset ∨
        VTableComponent.isFunctionPointerKindOf k = true := by
      revert hk; cases k <;> decide
    have hguard : (⟨p ||| k.toNat⟩ : VTableComponent).getKind = .CK_RTTI ∨
        (⟨p ||| k.toNat⟩ : VTableComponent).getKind = .CK_VCallOffset ∨
        (⟨p ||| k.toNat⟩ : VTableComponent).getKind = .CK_VBaseOffset ∨
        VTableComponent.isFunctionPointerKindOf
          (⟨p ||| k.toNat⟩ : VTableComponent).getKind = true := by
      rw [hgk]; exact hk'
    unfold VTableComponent.getPointer
    rw [if_pos hguard]
    show some ((p ||| k.toNat) &&& (2 ^ 64 - 8)) = some p
    rw [or_and_mask_eq p k.toNat hp8 hkt hp]

/-- Offset-mode round trip: for an offset kind and an offset in
`[-2^56, 2^56)`, construction succeeds, the kind reads back, and
`getOffset` recovers the offset exactly. -/
theorem ofOffset_roundtrip (k : VTableComponent.Kind) (o : Int)
    (hk : k = .CK_VCallOffset ∨ k = .CK_VBaseOffset ∨ k = .CK_OffsetToTop)
    (h1 : -(2 ^ 56) ≤ o) (h2 : o < 2 ^ 56) :
    ∃ c, VTableComponent.ofOffset k o = some c ∧ c.getKind = k ∧ c.getOffset = some o := by
  have hkt := VTableComponent.Kind.toNat_lt k
  have e3 : (2 : Nat) ^ 3 = 8 := rfl
  have e64n : (2 : Nat) ^ 64 = 18446744073709551616 := by norm_num
  have e63n : (2 : Nat) ^ 63 = 9223372036854775808 := by norm_num
  have e64i : (2 : Int) ^ 64 = 18446744073709551616 := by norm_num
  have h1' : -72057594037927936 ≤ o := by
    have : -(2 ^ 56 : Int) = -72057594037927936 := by norm_num
    rwa [this] at h1
  have h2' : o < 72057594037927936 := by
    have : (2 ^ 56 : Int) = 72057594037927936 := by norm_num
    rwa [this] at h2
  have hqspec : ((wordOfInt o : Nat) : Int) = o % 18446744073709551616 := by
    unfold wordOfInt
    rw [e64i]
    omega
  have hm' : (wordOfInt o <<< 3) % 2 ^ 64 = (8 * wordOfInt o) % 18446744073709551616 := by
    rw [Nat.shiftLeft_eq, e3, e64n, Nat.mul_comm]
  have hm8 : ((wordOfInt o <<< 3) % 2 ^ 64) % 8 = 0 := by
    rw [hm']
    omega
  have hgk : (⟨(wordOfInt o <<< 3) % 2 ^ 64 ||| k.toNat⟩ : VTableComponent).getKind = k :=
    getKind_or_tag _ k hm8
  refine ⟨⟨(wordOfInt o <<< 3) % 2 ^ 64 ||| k.toNat⟩, ?_, hgk, ?_⟩
  · unfold VTableComponent.ofOffset
    rw [if_pos ⟨hk, h2, h1⟩]
  · have hguard : (⟨(wordOfInt o <<< 3) % 2 ^ 64 ||| k.toNat⟩ : VTableComponent).getKind =
        .CK_VCallOffset ∨
        (⟨(wordOfInt o <<< 3) % 2 ^ 64 ||| k.toNat⟩ : VTableComponent).getKind =
        .CK_VBaseOffset ∨
        (⟨(wordOfInt o <<< 3) % 2 ^ 64 ||| k.toNat⟩ : VTableComponent).getKind =
        .CK_OffsetToTop := by
      rw [hgk]; exact hk
    unfold VTableComponent.getOffset
    rw [if_pos hguard]
    have hworddef : (⟨(wordOfInt o <<< 3) % 2 ^ 64 ||| k.toNat⟩ : VTableComponent).Value =
        (wordOfInt o <<< 3) % 2 ^ 64 + k.toNat := by
      show (wordOfInt o <<< 3) % 2 ^ 64 ||| k.toNat = _
      exact or_eq_add_of_low3 _ _ hm8 hkt
    rw [hworddef]
    unfold intOfWord
    rw [Int.fdiv_eq_ediv _ (by norm_num), e63n, e64i]
    congr 1
    rw [hm'] at hm8 ⊢
    split <;> omega

/-- C1: Slot encoding round-trip.  For every byte offset `o` with
`-2^56 <= o < 2^56` and every offset kind (vcall offset, vbase offset,
offset-to-top), the slot constructed from `o` reads back the constructed
kind via `getKind` and exactly `o` via the matching offset accessor; and a
placeholder slot constructed from a class pointer for the vcall/vbase kinds
reads back the same kind and the same pointer. -/
theorem vtableComponent_slot_encoding_roundtrip (o : Int) (p : Nat)
    (ho1 : -(2 ^ 56) ≤ o) (ho2 : o < 2 ^ 56) (hp : p &&& 7 = 0) (hpw : p < 2 ^ 64) :
    (∃ c, VTableComponent.MakeVCallOffset o = some c ∧
        c.getKind = .CK_VCallOffset ∧ c.getVCallOffset = some o) ∧
    (∃ c, VTableComponent.MakeVBaseOffset o = some c ∧
        c.getKind = .CK_VBaseOffset ∧ c.getVBaseOffset = some o) ∧
    (∃ c, VTableComponent.MakeOffsetToTop o = some c ∧
        c.getKind = .CK_OffsetToTop ∧ c.getOffsetToTop = some o) ∧
    (∃ c, VTableComponent.MakeVCall p = some c ∧
        c.getKind = .CK_VCallOffset ∧ c.getVCall = some p) ∧
    (∃ c, VTableComponent.MakeVBase p = some c ∧
        c.getKind = .CK_VBaseOffset ∧ c.getVBase = some p) := by
  refine ⟨?_, ?_, ?_, ?_, ?_⟩
  · obtain ⟨c, hmk, hgk, hoff⟩ :=
      ofOffset_roundtrip .CK_VCallOffset o (Or.inl rfl) ho1 ho2
    exact ⟨c, hmk, hgk, by simp [VTableComponent.getVCallOffset, hgk, hoff]⟩
  · obtain ⟨c, hmk, hgk, hoff⟩ :=
      ofOffset_roundtrip .CK_VBaseOffset o (Or.inr (Or.inl rfl)) ho1 ho2
    exact ⟨c, hmk, hgk, by simp [VTableComponent.getVBaseOffset, hgk, hoff]⟩
  · obtain ⟨c, hmk, hgk, hoff⟩ :=
      ofOffset_roundtrip .CK_OffsetToTop o (Or.inr (Or.inr rfl)) ho1 ho2
    exact ⟨c, hmk, hgk, by simp [VTableComponent.getOffsetToTop, hgk, hoff]⟩
  · obtain ⟨c, hmk, hgk, hptr⟩ := ofPointer_roundtrip .CK_VCallOffset p (by decide) hp hpw
    exact ⟨c, hmk, hgk, by simp [VTableComponent.getVCall, hgk, hptr]⟩
  · obtain ⟨c, hmk, hgk, hptr⟩ := ofPointer_roundtrip .CK_VBaseOffset p (by decide) hp hpw
    exact ⟨c, hmk, hgk, by simp [VTableComponent.getVBase, hgk, hptr]⟩

/-- Witness for C1 at the concrete offset `-3` and pointer `4096`. -/
theorem vtableComponent_slot_encoding_roundtrip_witness :
    (-(2 ^ 56) : Int) ≤ -3 ∧ (-3 : Int) < 2 ^ 56 ∧
    (4096 : Nat) &&& 7 = 0 ∧ (4096 : Nat) < 2 ^ 64 ∧
    ((∃ c, VTableComponent.MakeVCallOffset (-3) = some c ∧
        c.getKind = .CK_VCallOffset ∧ c.getVCallOffset = some (-3)) ∧
    (∃ c, VTableComponent.MakeVBaseOffset (-3) = some c ∧
        c.getKind = .CK_VBaseOffset ∧ c.getVBaseOffset = some (-3)) ∧
    (∃ c, VTableComponent.MakeOffsetToTop (-3) = some c ∧
        c.getKind = .CK_OffsetToTop ∧ c.getOffsetToTop = some (-3)) ∧
    (∃ c, VTableComponent.MakeVCall 4096 = some c ∧
        c.getKind = .CK_VCallOffset ∧ c.getVCall = some 4096) ∧
    (∃ c, VTableComponent.MakeVBase 4096 = some c ∧
        c.getKind = .CK_VBaseOffset ∧ c.getVBase = some 4096)) :=
  ⟨by norm_num, by norm_num, by decide, by norm_num,
    vtableComponent_slot_encoding_roundtrip (-3) 4096
      (by norm_num) (by norm_num) (by decide) (by norm_num)⟩

/-- C4: Pointer-slot alignment precondition.  For every kind the
pointer-mode constructor accepts (RTTI, the function-pointer kinds, and the
vcall/vbase placeholders), construction from a misaligned address (low 3
bits non-zero) fails the precondition check, while construction from an
8-byte-aligned address succeeds and `getPointer` then returns exactly the
constructed pointer — the kind tag never corrupts the payload. -/
theorem vtableComponent_pointer_alignment (k : VTableComponent.Kind) (p : Nat)
    (hk : (VTableComponent.isRTTIKindOf k || VTableComponent.isFunctionPointerKindOf k ||
           k == .CK_VCallOffset || k == .CK_VBaseOffset) = true) :
    (p &&& 7 ≠ 0 → VTableComponent.ofPointer k p = none) ∧
    (p &&& 7 = 0 → p < 2 ^ 64 →
      ∃ c, VTableComponent.ofPointer k p = some c ∧
        c.getKind = k ∧ c.getPointer = some p) := by
  constructor
  · intro hmis
    unfold VTableComponent.ofPointer
    rw [if_neg]
    intro hcond
    exact hmis hcond.2
  · intro hal hp
    exact ofPointer_roundtrip k p hk hal hp

/-- Witness for C4: an RTTI slot, misaligned address `12` rejected and
aligned address `4096` round-tripped. -/
theorem vtableComponent_pointer_alignment_witness :
    (VTableComponent.isRTTIKindOf .CK_RTTI ||
     VTableComponent.isFunctionPointerKindOf .CK_RTTI ||
     (VTableComponent.Kind.CK_RTTI == .CK_VCallOffset) ||
     (VTableComponent.Kind.CK_RTTI == .CK_VBaseOffset)) = true ∧
    ((12 : Nat) &&& 7 ≠ 0) ∧ VTableComponent.ofPointer .CK_RTTI 12 = none ∧
    ((4096 : Nat) &&& 7 = 0) ∧ (4096 : Nat) < 2 ^ 64 ∧
    (∃ c, VTableComponent.ofPointer .CK_RTTI 4096 = some c ∧
      c.getKind = .CK_RTTI ∧ c.getPointer = some 4096) :=
  ⟨by decide, by decide,
    (vtableComponent_pointer_alignment .CK_RTTI 12 (by decide)).1 (by decide),
    by decide, by norm_num,
    (vtableComponent_pointer_alignment .CK_RTTI 4096 (by decide)).2 (by decide) (by norm_num)⟩

/-- A C++ method declaration, identified by its address (the value a
`CXXMethodDecl*` reinterpret-casts to) together with whether it is a
`CXXDestructorDecl`. -/
structure MethodDecl where
  ptr : Nat
  isDtorDecl : Bool
deriving DecidableEq

/-- `CXXDtorType` from `clang/Basic/ABI.h`: the destructor entry-point
flavors, in declaration order. -/
inductive CXXDtorType where
  | Dtor_Deleting
  | Dtor_Complete
  | Dtor_Base
  | Dtor_Comdat
deriving DecidableEq

/-- `GlobalDecl`: a declaration (by address) optionally paired with a
destructor-flavor discriminant (`some` exactly for destructor entries). -/
structure GlobalDecl where
  decl : Nat
  dtorType : Option CXXDtorType
deriving DecidableEq

/-- `MakeFunction`: asserts the declaration is not a destructor, then
builds a `CK_FunctionPointer` slot from its pointer. -/
def VTableComponent.MakeFunction (MD : MethodDecl) : Option VTableComponent :=
  if MD.isDtorDecl then none
  else VTableComponent.ofPointer .CK_FunctionPointer MD.ptr

/-- `MakeCompleteDtor` (the C++ parameter type `CXXDestructorDecl*`
requires a destructor declaration statically). -/
def VTableComponent.MakeCompleteDtor (DD : MethodDecl) : Option VTableComponent :=
  VTableComponent.ofPointer .CK_CompleteDtorPointer DD.ptr

/-- `MakeDeletingDtor`. -/
def VTableComponent.MakeDeletingDtor (DD : MethodDecl) : Option VTableComponent :=
  VTableComponent.ofPointer .CK_DeletingDtorPointer DD.ptr

/-- `MakeUnusedFunction`: asserts the declaration is not a destructor, then
builds a `CK_UnusedFunctionPointer` slot from its pointer. -/
def VTableComponent.MakeUnusedFunction (MD : MethodDecl) : Option VTableComponent :=
  if MD.isDtorDecl then none
  else VTableComponent.ofPointer .CK_UnusedFunctionPointer MD.ptr

/-- `getDestructorDecl`: asserts a destructor kind, reads the pointer. -/
def VTableComponent.getDestructorDecl (c : VTableComponent) : Option Nat :=
  if VTableComponent.isDestructorKindOf c.getKind then c.getPointer else none

/-- `getFunctionDecl`: asserts a function-pointer kind; destructor kinds go
through `getDestructorDecl`, the others read the pointer directly. -/
def VTableComponent.getFunctionDecl (c : VTableComponent) : Option Nat :=
  if VTableComponent.isFunctionPointerKindOf c.getKind then
    if VTableComponent.isDestructorKindOf c.getKind then c.getDestructorDecl
    else c.getPointer
  else none

/-- `getUnusedFunctionDecl`: asserts `CK_UnusedFunctionPointer`, reads the
pointer. -/
def VTableComponent.getUnusedFunctionDecl (c : VTableComponent) : Option Nat :=
  if c.getKind = .CK_UnusedFunctionPointer then c.getPointer else none

/-- `getGlobalDecl`: asserts a *used* function-pointer kind, then maps an
ordinary function-pointer slot to that method's `GlobalDecl`, a
complete-destructor slot to the `Dtor_Complete` flavor and a
deleting-destructor slot to the `Dtor_Deleting` flavor; the remaining
switch cases are `llvm_unreachable`. -/
def VTableComponent.getGlobalDecl (c : VTableComponent) : Option GlobalDecl :=
  if VTableComponent.isUsedFunctionPointerKindOf c.getKind then
    match c.getKind, c.getFunctionDecl with
    | .CK_FunctionPointer, some p => some ⟨p, none⟩
    | .CK_CompleteDtorPointer, some p => some ⟨p, some .Dtor_Complete⟩
    | .CK_DeletingDtorPointer, some p => some ⟨p, some .Dtor_Deleting⟩
    | _, _ => none
  else none

/-- C5: `getGlobalDecl` mapping.  An ordinary function-pointer slot maps to
a `GlobalDecl` naming that method, a complete-destructor slot to the
destructor's `Dtor_Complete` flavor, a deleting-destructor slot to its
`Dtor_Deleting` flavor, and calling it on a slot of a
non-function-pointer-bearing kind fails the precondition check. -/
theorem vtableComponent_getGlobalDecl_mapping (MD DD : MethodDecl)
    (hMD : MD.isDtorDecl = false) (hMDal : MD.ptr &&& 7 = 0) (hMDw : MD.ptr < 2 ^ 64)
    (hDD : DD.isDtorDecl = true) (hDDal : DD.ptr &&& 7 = 0) (hDDw : DD.ptr < 2 ^ 64) :
    (∃ c, VTableComponent.MakeFunction MD = some c ∧
        c.getGlobalDecl = some ⟨MD.ptr, none⟩) ∧
    (∃ c, VTableComponent.MakeCompleteDtor DD = some c ∧
        c.getGlobalDecl = some ⟨DD.ptr, some .Dtor_Complete⟩) ∧
    (∃ c, VTableComponent.MakeDeletingDtor DD = some c ∧
        c.getGlobalDecl = some ⟨DD.ptr, some .Dtor_Deleting⟩) ∧
    (∀ c : VTableComponent, VTableComponent.isFunctionPointerKindOf c.getKind = false →
        c.getGlobalDecl = none) := by
  refine ⟨?_, ?_, ?_, ?_⟩
  · obtain ⟨c, hmk, hgk, hptr⟩ :=
      ofPointer_roundtrip .CK_FunctionPointer MD.ptr (by decide) hMDal hMDw
    refine ⟨c, by simp [VTableComponent.MakeFunction, hMD, hmk], ?_⟩
    have hfd : c.getFunctionDecl = some MD.ptr := by
      simp [VTableComponent.getFunctionDecl, hgk, VTableComponent.isFunctionPointerKindOf,
        VTableComponent.isUsedFunctionPointerKindOf, VTableComponent.isDestructorKindOf, hptr]
    simp [VTableComponent.getGlobalDecl, hgk, hfd,
      VTableComponent.isUsedFunctionPointerKindOf, VTableComponent.isDestructorKindOf]
  · obtain ⟨c, hmk, hgk, hptr⟩ :=
      ofPointer_roundtrip .CK_CompleteDtorPointer DD.ptr (by decide) hDDal hDDw
    refine ⟨c, hmk, ?_⟩
    have hfd : c.getFunctionDecl = some DD.ptr := by
      simp [VTableComponent.getFunctionDecl, VTableComponent.getDestructorDecl, hgk,
        VTableComponent.isFunctionPointerKindOf, VTableComponent.isUsedFunctionPointerKindOf,
        VTableComponent.isDestructorKindOf, hptr]
    simp [VTableComponent.getGlobalDecl, hgk, hfd,
      VTableComponent.isUsedFunctionPointerKindOf, VTableComponent.isDestructorKindOf]
  · obtain ⟨c, hmk, hgk, hptr⟩ :=
      ofPointer_roundtrip .CK_DeletingDtorPointer DD.ptr (by decide) hDDal hDDw
    refine ⟨c, hmk, ?_⟩
    have hfd : c.getFunctionDecl = some DD.ptr := by
      simp [VTableComponent.getFunctionDecl, VTableComponent.getDestructorDecl, hgk,
        VTableComponent.isFunctionPointerKindOf, VTableComponent.isUsedFunctionPointerKindOf,
        VTableComponent.isDestructorKindOf, hptr]
    simp [VTableComponent.getGlobalDecl, hgk, hfd,
      VTableComponent.isUsedFunctionPointerKindOf, VTableComponent.isDestructorKindOf]
  · intro c h
    have hu : VTableComponent.isUsedFunctionPointerKindOf c.getKind = false := by
      revert h
      generalize c.getKind = k
      cases k <;> decide
    simp [VTableComponent.getGlobalDecl, hu]

/-- Witness for C5: ordinary method at address 16, destructor at address
24, and the non-function-pointer slot with word `2` (offset-to-top tag). -/
theorem vtableComponent_getGlobalDecl_mapping_witness :
    (⟨16, false⟩ : MethodDecl).isDtorDecl = false ∧
    (⟨16, false⟩ : MethodDecl).ptr &&& 7 = 0 ∧ (⟨16, false⟩ : MethodDecl).ptr < 2 ^ 64 ∧
    (⟨24, true⟩ : MethodDecl).isDtorDecl = true ∧
    (⟨24, true⟩ : MethodDecl).ptr &&& 7 = 0 ∧ (⟨24, true⟩ : MethodDecl).ptr < 2 ^ 64 ∧
    (∃ c, VTableComponent.MakeFunction ⟨16, false⟩ = some c ∧
        c.getGlobalDecl = some ⟨16, none⟩) ∧
    (∃ c, VTableComponent.MakeCompleteDtor ⟨24, true⟩ = some c ∧
        c.getGlobalDecl = some ⟨24, some .Dtor_Complete⟩) ∧
    (∃ c, VTableComponent.MakeDeletingDtor ⟨24, true⟩ = some c ∧
        c.getGlobalDecl = some ⟨24, some .Dtor_Deleting⟩) ∧
    VTableComponent.isFunctionPointerKindOf (⟨2⟩ : VTableComponent).getKind = false ∧
    (⟨2⟩ : VTableComponent).getGlobalDecl = none := by
  have h := vtableComponent_getGlobalDecl_mapping ⟨16, false⟩ ⟨24, true⟩
    rfl (by decide) (by norm_num) rfl (by decide) (by norm_num)
  exact ⟨rfl, by decide, by norm_num, rfl, by decide, by norm_num,
    h.1, h.2.1, h.2.2.1, by decide, h.2.2.2 ⟨2⟩ (by decide)⟩

/-- C10: for a non-destructor method `M`, `getFunctionDecl` on the slot
`MakeUnusedFunction M` passes its kind precondition (the
function-pointer-kind check accepts `CK_UnusedFunctionPointer`) and returns
exactly `M`'s declaration — the same one `getUnusedFunctionDecl` returns. -/
theorem vtableComponent_unusedFunction_getFunctionDecl (MD : MethodDecl)
    (h1 : MD.isDtorDecl = false) (h2 : MD.ptr &&& 7 = 0) (h3 : MD.ptr < 2 ^ 64) :
    ∃ c, VTableComponent.MakeUnusedFunction MD = some c ∧
      VTableComponent.isFunctionPointerKindOf c.getKind = true ∧
      c.getFunctionDecl = some MD.ptr ∧
      c.getUnusedFunctionDecl = some MD.ptr := by
  obtain ⟨c, hmk, hgk, hptr⟩ :=
    ofPointer_roundtrip .CK_UnusedFunctionPointer MD.ptr (by decide) h2 h3
  refine ⟨c, by simp [VTableComponent.MakeUnusedFunction, h1, hmk], ?_, ?_, ?_⟩
  · simp [hgk, VTableComponent.isFunctionPointerKindOf,
      VTableComponent.isUsedFunctionPointerKindOf, VTableComponent.isDestructorKindOf]
  · simp [VTableComponent.getFunctionDecl, hgk, VTableComponent.isFunctionPointerKindOf,
      VTableComponent.isUsedFunctionPointerKindOf, VTableComponent.isDestructorKindOf, hptr]
  · simp [VTableComponent.getUnusedFunctionDecl, hgk, hptr]

/-- Witness for C10 at a non-destructor method with address 32. -/
theorem vtableComponent_unusedFunction_getFunctionDecl_witness :
    (⟨32, false⟩ : MethodDecl).isDtorDecl = false ∧
    (⟨32, false⟩ : MethodDecl).ptr &&& 7 = 0 ∧ (⟨32, false⟩ : MethodDecl).ptr < 2 ^ 64 ∧
    (∃ c, VTableComponent.MakeUnusedFunction ⟨32, false⟩ = some c ∧
      VTableComponent.isFunctionPointerKindOf c.getKind = true ∧
      c.getFunctionDecl = some 32 ∧
      c.getUnusedFunctionDecl = some 32) :=
  ⟨rfl, by decide, by norm_num,
    vtableComponent_unusedFunction_getFunctionDecl ⟨32, false⟩ rfl (by decide) (by norm_num)⟩

/-- `ThunkInfo` — external boundary type.  Modelled from the spec: a
thunk description holds the `this`-pointer and return-pointer byte
adjustments a trampoline must apply. -/
structure ThunkInfo where
  thisAdjustment : Int
  returnAdjustment : Int
deriving DecidableEq

/-- `BaseSubobject` — external boundary type.  Modelled from the spec: a
base class identity plus its byte offset within the complete object. -/
structure BaseSubobject where
  base : Nat
  baseOffset : Int
deriving DecidableEq

/-- `VTableLayout::AddressPointLocation`. -/
structure AddressPointLocation where
  VTableIndex : Nat
  AddressPointIndex : Nat
deriving DecidableEq

/-- `VTableLayout`: start indices of each vtable in the group (an empty
sequence abbreviates `{0}`), the concatenated components, the thunk pairs
sorted by component index, the address points, and the primary-table
virtual-method count. -/
structure VTableLayout where
  VTableIndices : List Nat
  VTableComponents : List VTableComponent
  VTableThunks : List (Nat × ThunkInfo)
  AddressPoints : List (BaseSubobject × AddressPointLocation)
  PrimaryVirtualMethodsCount : Nat

/-- `getNumVTables`: 1 for the empty start-index sequence, else its length. -/
def VTableLayout.getNumVTables (L : VTableLayout) : Nat :=
  if L.VTableIndices.isEmpty then 1 else L.VTableIndices.length

/-- `getVTableOffset(i)`: 0 for table 0 of the empty sequence (`assert(i ==
0)` modelled as the guard), else the `i`-th start index (the `ArrayRef`
bounds check modelled as the guard). -/
def VTableLayout.getVTableOffset (L : VTableLayout) (i : Nat) : Option Nat :=
  if L.VTableIndices.isEmpty then
    if i = 0 then some 0 else none
  else
    L.VTableIndices[i]?

/-- `getVTableSize(i)`: the whole component sequence for table 0 of the
empty sequence; otherwise the distance from this table's start index to the
next one (or to the end of the component sequence for the last table). -/
def VTableLayout.getVTableSize (L : VTableLayout) (i : Nat) : Option Nat :=
  if L.VTableIndices.isEmpty then
    if i = 0 then some L.VTableComponents.length else none
  else
    match L.VTableIndices[i]? with
    | none => none
    | some thisIndex =>
      match (if i + 1 = L.VTableIndices.length then some L.VTableComponents.length
             else L.VTableIndices[i + 1]?) with
      | none => none
      | some nextIndex => some (nextIndex - thisIndex)

/-- `getPrimaryVirtualMethodsCount`. -/
def VTableLayout.getPrimaryVirtualMethodsCount (L : VTableLayout) : Nat :=
  L.PrimaryVirtualMethodsCount

/-- A 12-slot component sequence (slot contents are irrelevant to the
start-index slicing queries). -/
def twelveSlots : List VTableComponent := List.replicate 12 ⟨0⟩

/-- Example layout with the empty start-index shorthand over 12 slots. -/
def singleTableLayout : VTableLayout := ⟨[], twelveSlots, [], [], 0⟩

/-- Example layout with start indices `[0, 5, 9]` over 12 slots. -/
def multiTableLayout : VTableLayout := ⟨[0, 5, 9], twelveSlots, [], [], 0⟩

/-- C2: `VTableLayout` derived queries.  `getNumVTables` is 1 for the empty
start-index sequence, else its length; `getVTableOffset 0` is 0 for the
empty sequence and otherwise `getVTableOffset i` is the `i`-th start index;
`getVTableSize i` is the next table's start index (or the component-count
for the last table) minus table `i`'s start index; an empty sequence gives
one table spanning the full component sequence, and start indices
`[0, 5, 9]` over 12 components give 3 tables of sizes 5, 4, 3 at offsets
0, 5, 9. -/
theorem vtableLayout_derived_queries :
    (∀ L : VTableLayout, L.VTableIndices = [] →
      L.getNumVTables = 1 ∧ L.getVTableOffset 0 = some 0 ∧
      L.getVTableSize 0 = some L.VTableComponents.length) ∧
    (∀ L : VTableLayout, L.VTableIndices ≠ [] →
      L.getNumVTables = L.VTableIndices.length ∧
      (∀ i, i < L.VTableIndices.length → L.getVTableOffset i = L.VTableIndices[i]?) ∧
      (∀ i si ni, L.VTableIndices[i]? = some si → L.VTableIndices[i + 1]? = some ni →
        L.getVTableSize i = some (ni - si)) ∧
      (∀ i si, i + 1 = L.VTableIndices.length → L.VTableIndices[i]? = some si →
        L.getVTableSize i = some (L.VTableComponents.length - si))) ∧
    (singleTableLayout.getNumVTables = 1 ∧
     singleTableLayout.getVTableOffset 0 = some 0 ∧
     singleTableLayout.getVTableSize 0 = some 12) ∧
    (multiTableLayout.getNumVTables = 3 ∧
     multiTableLayout.getVTableOffset 0 = some 0 ∧
     multiTableLayout.getVTableOffset 1 = some 5 ∧
     multiTableLayout.getVTableOffset 2 = some 9 ∧
     multiTableLayout.getVTableSize 0 = some 5 ∧
     multiTableLayout.getVTableSize 1 = some 4 ∧
     multiTableLayout.getVTableSize 2 = some 3) := by
  refine ⟨?_, ?_, by decide, by decide⟩
  · intro L hL
    refine ⟨?_, ?_, ?_⟩ <;>
      simp [VTableLayout.getNumVTables, VTableLayout.getVTableOffset,
        VTableLayout.getVTableSize, hL]
  · intro L hL
    have hne : L.VTableIndices.isEmpty = false := by
      cases hc : L.VTableIndices with
      | nil => exact absurd hc hL
      | cons a l => rfl
    refine ⟨?_, ?_, ?_, ?_⟩
    · simp [VTableLayout.getNumVTables, hne]
    · intro i hi
      simp [VTableLayout.getVTableOffset, hne]
    · intro i si ni hsi hni
      have hiplus : i + 1 < L.VTableIndices.length := by
        have := List.getElem?_eq_some_iff.mp hni
        exact this.1
      have hneq : ¬(i + 1 = L.VTableIndices.length) := by omega
      simp [VTableLayout.getVTableSize, hne, hsi, hni, hneq]
    · intro i si hlast hsi
      simp [VTableLayout.getVTableSize, hne, hsi, hlast]

/-- Witness for C2, instantiating the general queries at the two example
layouts. -/
theorem vtableLayout_derived_queries_witness :
    singleTableLayout.VTableIndices = [] ∧
    (singleTableLayout.getNumVTables = 1 ∧
     singleTableLayout.getVTableOffset 0 = some 0 ∧
     singleTableLayout.getVTableSize 0 = some singleTableLayout.VTableComponents.length) ∧
    multiTableLayout.VTableIndices ≠ [] ∧
    multiTableLayout.getNumVTables = multiTableLayout.VTableIndices.length ∧
    (1 < multiTableLayout.VTableIndices.length ∧
     multiTableLayout.getVTableOffset 1 = multiTableLayout.VTableIndices[1]?) ∧
    (multiTableLayout.VTableIndices[1]? = some 5 ∧
     multiTableLayout.VTableIndices[2]? = some 9 ∧
     multiTableLayout.getVTableSize 1 = some (9 - 5)) ∧
    (2 + 1 = multiTableLayout.VTableIndices.length ∧
     multiTableLayout.VTableIndices[2]? = some 9 ∧
     multiTableLayout.getVTableSize 2 = some (multiTableLayout.VTableComponents.length - 9)) := by
  have h := vtableLayout_derived_queries
  have hm := h.2.1 multiTableLayout (by decide)
  refine ⟨rfl, h.1 singleTableLayout rfl, by decide, hm.1, ⟨by decide, ?_⟩, ⟨by decide, by decide, ?_⟩, ⟨by decide, by decide, ?_⟩⟩
  · exact hm.2.1 1 (by decide)
  · exact hm.2.2.1 1 5 9 (by decide) (by decide)
  · exact hm.2.2.2 2 9 (by decide) (by decide)

/-- The fragment of the AST the thunk query consults: canonicalization of a
declaration (`getCanonicalDecl`), the owning class of a (canonical) method
(`getParent`), and the destructor test (`isa<CXXDestructorDecl>`), all on
declaration addresses. -/
structure ASTEnv where
  canonicalOf : Nat → Nat
  parentOf : Nat → Nat
  isDtorOf : Nat → Bool

/-- `VTableContextBase::ThunksMapTy`: method declaration → its thunk list. -/
def ThunksMapTy : Type := List (Nat × List ThunkInfo)

/-- `DenseMap::find`: the stored thunk list for a method, or `none`. -/
def thunksFind (m : ThunksMapTy) (MD : Nat) : Option (List ThunkInfo) :=
  (List.find? (fun e => decide (e.1 = MD)) m).map (fun e => e.2)

/-- `VTableContextBase` state: the ABI flag and the thunk map. -/
structure VTableContextBase where
  IsMicrosoftABI : Bool
  Thunks : ThunksMapTy

/-- `VTableContextBase::getThunkInfo`: resolve the queried declaration to
its canonical method, run `computeVTableRelatedInformation` on that
method's owning class (passed in as a state transformer on the thunk map,
since the virtual's body lives in the ABI-specific builders), then look the
canonical method up in the thunk map — `none` when absent.  Returns the
result together with the updated context. -/
def VTableContextBase.getThunkInfo (env : ASTEnv)
    (computeVTableRelatedInformation : Nat → ThunksMapTy → ThunksMapTy)
    (ctx : VTableContextBase) (GD : GlobalDecl) :
    Option (List ThunkInfo) × VTableContextBase :=
  let MD := env.canonicalOf GD.decl
  let ctx1 : VTableContextBase :=
    { ctx with Thunks := computeVTableRelatedInformation (env.parentOf MD) ctx.Thunks }
  (thunksFind ctx1.Thunks MD, ctx1)

/-- `MicrosoftVTableContext::getThunkInfo`: complete destructors have no
vftable slot, so no thunks are needed; otherwise defer to the base class. -/
def MicrosoftVTableContext.getThunkInfo (env : ASTEnv)
    (computeVTableRelatedInformation : Nat → ThunksMapTy → ThunksMapTy)
    (ctx : VTableContextBase) (GD : GlobalDecl) :
    Option (List ThunkInfo) × VTableContextBase :=
  if env.isDtorOf GD.decl && (GD.dtorType == some .Dtor_Complete) then (none, ctx)
  else VTableContextBase.getThunkInfo env computeVTableRelatedInformation ctx GD

/-- C3: Microsoft destructor omission.  A destructor queried in its
complete-object flavor yields "no thunks needed" unconditionally — for
every thunk map and every compute function, without touching the context —
and every other query defers to the shared `VTableContextBase` behavior. -/
theorem microsoft_getThunkInfo_complete_dtor (env : ASTEnv)
    (compute : Nat → ThunksMapTy → ThunksMapTy)
    (ctx : VTableContextBase) (GD : GlobalDecl) :
    (env.isDtorOf GD.decl = true → GD.dtorType = some .Dtor_Complete →
      MicrosoftVTableContext.getThunkInfo env compute ctx GD = (none, ctx)) ∧
    (¬(env.isDtorOf GD.decl = true ∧ GD.dtorType = some .Dtor_Complete) →
      MicrosoftVTableContext.getThunkInfo env compute ctx GD =
        VTableContextBase.getThunkInfo env compute ctx GD) := by
  constructor
  · intro h1 h2
    simp [MicrosoftVTableContext.getThunkInfo, h1, h2]
  · intro h
    unfold MicrosoftVTableContext.getThunkInfo
    rw [if_neg]
    intro hcond
    rw [Bool.and_eq_true, beq_iff_eq] at hcond
    exact h ⟨hcond.1, hcond.2⟩

/-- Witness for C3: a complete-destructor query against a context whose
thunk map does hold an entry for the very same declaration (showing the
stored thunks are ignored), plus a deleting-flavor query deferring to the
base behavior. -/
theorem microsoft_getThunkInfo_complete_dtor_witness :
    (ASTEnv.mk id id (fun _ => true)).isDtorOf 0 = true ∧
    (GlobalDecl.mk 0 (some .Dtor_Complete)).dtorType = some .Dtor_Complete ∧
    MicrosoftVTableContext.getThunkInfo (ASTEnv.mk id id (fun _ => true))
      (fun _ m => m) (VTableContextBase.mk true [(0, [⟨8, 0⟩])])
      (GlobalDecl.mk 0 (some .Dtor_Complete)) =
      (none, VTableContextBase.mk true [(0, [⟨8, 0⟩])]) ∧
    (¬((ASTEnv.mk id id (fun _ => true)).isDtorOf 0 = true ∧
       (GlobalDecl.mk 0 (some .Dtor_Deleting)).dtorType = some .Dtor_Complete)) ∧
    MicrosoftVTableContext.getThunkInfo (ASTEnv.mk id id (fun _ => true))
      (fun _ m => m) (VTableContextBase.mk true [(0, [⟨8, 0⟩])])
      (GlobalDecl.mk 0 (some .Dtor_Deleting)) =
      VTableContextBase.getThunkInfo (ASTEnv.mk id id (fun _ => true))
        (fun _ m => m) (VTableContextBase.mk true [(0, [⟨8, 0⟩])])
        (GlobalDecl.mk 0 (some .Dtor_Deleting)) := by
  refine ⟨rfl, rfl, ?_, ?_, ?_⟩
  · exact (microsoft_getThunkInfo_complete_dtor _ _ _ _).1 rfl rfl
  · simp
  · exact (microsoft_getThunkInfo_complete_dtor _ _ _ _).2 (by simp)

/-- C6: the shared thunk query resolves the queried declaration to its
canonical method and owning class, runs that class's lazy layout
computation, then looks the canonical method up in the (recomputed) thunk
map: the stored list when present, `none` ("no thunks needed", not an
error) when absent. -/
theorem base_getThunkInfo_canonical_lookup (env : ASTEnv)
    (compute : Nat → ThunksMapTy → ThunksMapTy)
    (ctx : VTableContextBase) (GD : GlobalDecl) :
    ((VTableContextBase.getThunkInfo env compute ctx GD).2 =
      { ctx with Thunks := compute (env.parentOf (env.canonicalOf GD.decl)) ctx.Thunks }) ∧
    (∀ l, thunksFind (compute (env.parentOf (env.canonicalOf GD.decl)) ctx.Thunks)
        (env.canonicalOf GD.decl) = some l →
      (VTableContextBase.getThunkInfo env compute ctx GD).1 = some l) ∧
    (thunksFind (compute (env.parentOf (env.canonicalOf GD.decl)) ctx.Thunks)
        (env.canonicalOf GD.decl) = none →
      (VTableContextBase.getThunkInfo env compute ctx GD).1 = none) := by
  refine ⟨rfl, ?_, ?_⟩
  · intro l hl
    simpa [VTableContextBase.getThunkInfo] using hl
  · intro hl
    simpa [VTableContextBase.getThunkInfo] using hl

/-- Witness for C6: a canonicalization that maps declaration 5 to 4, a
compute step that installs a thunk list for method 4, and an absent method. -/
theorem base_getThunkInfo_canonical_lookup_witness :
    thunksFind ((fun (_ : Nat) (m : ThunksMapTy) => (4, [(⟨8, 0⟩ : ThunkInfo)]) :: m)
        ((ASTEnv.mk (fun d => d - 1) id (fun _ => false)).parentOf
          ((ASTEnv.mk (fun d => d - 1) id (fun _ => false)).canonicalOf 5))
        (VTableContextBase.mk false []).Thunks)
      ((ASTEnv.mk (fun d => d - 1) id (fun _ => false)).canonicalOf 5) =
      some [(⟨8, 0⟩ : ThunkInfo)] ∧
    (VTableContextBase.getThunkInfo (ASTEnv.mk (fun d => d - 1) id (fun _ => false))
      (fun _ m => (4, [(⟨8, 0⟩ : ThunkInfo)]) :: m)
      (VTableContextBase.mk false []) (GlobalDecl.mk 5 none)).1 =
      some [(⟨8, 0⟩ : ThunkInfo)] ∧
    thunksFind ((fun (_ : Nat) (m : ThunksMapTy) => m)
        ((ASTEnv.mk id id (fun _ => false)).parentOf
          ((ASTEnv.mk id id (fun _ => false)).canonicalOf 7))
        (VTableContextBase.mk false []).Thunks)
      ((ASTEnv.mk id id (fun _ => false)).canonicalOf 7) = none ∧
    (VTableContextBase.getThunkInfo (ASTEnv.mk id id (fun _ => false))
      (fun _ m => m) (VTableContextBase.mk false []) (GlobalDecl.mk 7 none)).1 = none := by
  refine ⟨rfl, ?_, rfl, ?_⟩
  · exact (base_getThunkInfo_canonical_lookup _ _ _ _).2.1 _ rfl
  · exact (base_getThunkInfo_canonical_lookup _ _ _ _).2.2 rfl

/-- `MethodVFTableLocation`: vbtable index of the virtual base holding the
vfptr (0 = none), the last virtual base the definition is adjusted to
(`nullptr` = `none`), the vfptr offset from that vbase (or the complete
type), and the method's slot index in the vftable. -/
structure MethodVFTableLocation where
  VBTableIndex : Nat
  VBase : Option Nat
  VFPtrOffset : Int
  Index : Nat
deriving DecidableEq

/-- `MethodVFTableLocation::operator<`: when the vbtable indices differ it
asserts the virtual bases differ too (assert modelled as `none`) and
compares the indices; otherwise it compares `(VFPtrOffset, Index)`
lexicographically via `std::tie`. -/
def MethodVFTableLocation.ltChecked (a b : MethodVFTableLocation) : Option Bool :=
  if a.VBTableIndex ≠ b.VBTableIndex then
    if a.VBase ≠ b.VBase then some (decide (a.VBTableIndex < b.VBTableIndex))
    else none
  else
    some (decide (a.VFPtrOffset < b.VFPtrOffset) ||
      (a.VFPtrOffset == b.VFPtrOffset && decide (a.Index < b.Index)))

/-- The comparison key of a location, stated from the spec's words: the
triple (vbtable index, vfptr offset, slot index). -/
def locTriple (a : MethodVFTableLocation) : Nat × Int × Nat :=
  (a.VBTableIndex, a.VFPtrOffset, a.Index)

/-- Strict lexicographic order on comparison-key triples, stated from the
spec's words: primarily by vbtable index, then by (offset, slot index). -/
def lexLtTriple (x y : Nat × Int × Nat) : Bool :=
  decide (x.1 < y.1) ||
    (x.1 == y.1 && (decide (x.2.1 < y.2.1) ||
      (x.2.1 == y.2.1 && decide (x.2.2 < y.2.2))))

/-- C7 counterexample: the comparison precondition accepts a pair of
locations with equal vbtable indices referring to distinct virtual bases,
so the claimed invariant "equal index implies same virtual base" is not
what the code checks. -/
theorem methodVFTableLocation_equal_index_distinct_vbase :
    (MethodVFTableLocation.ltChecked ⟨2, some 1, 0, 0⟩ ⟨2, some 3, 0, 1⟩).isSome = true ∧
    (⟨2, some 1, 0, 0⟩ : MethodVFTableLocation).VBTableIndex =
      (⟨2, some 3, 0, 1⟩ : MethodVFTableLocation).VBTableIndex ∧
    (⟨2, some 1, 0, 0⟩ : MethodVFTableLocation).VBase ≠
      (⟨2, some 3, 0, 1⟩ : MethodVFTableLocation).VBase := by
  decide

/-- C7 as amended: the invariant `operator<` actually enforces is the
converse — for every pair of locations the comparison accepts, the virtual
base determines the vbtable index: same virtual base forces the same
index (two locations never carry distinct indices for the same virtual
base). -/
theorem methodVFTableLocation_vbase_determines_index (a b : MethodVFTableLocation)
    (h : (MethodVFTableLocation.ltChecked a b).isSome = true)
    (hvb : a.VBase = b.VBase) :
    a.VBTableIndex = b.VBTableIndex := by
  by_contra hne
  rw [MethodVFTableLocation.ltChecked, if_pos hne, if_neg (by simpa using hvb)] at h
  simp at h

/-- Witness for the amended C7 at a concrete comparable pair sharing a
virtual base. -/
theorem methodVFTableLocation_vbase_determines_index_witness :
    (MethodVFTableLocation.ltChecked ⟨3, some 5, 0, 1⟩ ⟨3, some 5, 2, 0⟩).isSome = true ∧
    (⟨3, some 5, 0, 1⟩ : MethodVFTableLocation).VBase =
      (⟨3, some 5, 2, 0⟩ : MethodVFTableLocation).VBase ∧
    (⟨3, some 5, 0, 1⟩ : MethodVFTableLocation).VBTableIndex =
      (⟨3, some 5, 2, 0⟩ : MethodVFTableLocation).VBTableIndex :=
  ⟨by decide, by decide,
    methodVFTableLocation_vbase_determines_index ⟨3, some 5, 0, 1⟩ ⟨3, some 5, 2, 0⟩
      (by decide) (by decide)⟩

/-- C8: on every pair its precondition accepts, `operator<` computes the
strict lexicographic order on (vbtable index, vfptr offset, slot index);
locations with equal triples compare less-than in neither direction, and
accepted pairs satisfy trichotomy. -/
theorem methodVFTableLocation_lt_lexicographic :
    (∀ a b : MethodVFTableLocation,
      (a.VBTableIndex ≠ b.VBTableIndex → a.VBase ≠ b.VBase) →
      MethodVFTableLocation.ltChecked a b = some (lexLtTriple (locTriple a) (locTriple b))) ∧
    (∀ a b : MethodVFTableLocation, locTriple a = locTriple b →
      MethodVFTableLocation.ltChecked a b = some false ∧
      MethodVFTableLocation.ltChecked b a = some false) ∧
    (∀ a b : MethodVFTableLocation,
      (a.VBTableIndex ≠ b.VBTableIndex → a.VBase ≠ b.VBase) →
      MethodVFTableLocation.ltChecked a b = some true ∨
      MethodVFTableLocation.ltChecked b a = some true ∨
      locTriple a = locTriple b) := by
  refine ⟨?_, ?_, ?_⟩
  · intro a b hpre
    by_cases hidx : a.VBTableIndex = b.VBTableIndex
    · simp [MethodVFTableLocation.ltChecked, hidx, lexLtTriple, locTriple]
    · rw [MethodVFTableLocation.ltChecked, if_pos hidx, if_pos (hpre hidx)]
      have : lexLtTriple (locTriple a) (locTriple b) = decide (a.VBTableIndex < b.VBTableIndex) := by
        simp [lexLtTriple, locTriple, hidx]
      rw [this]
  · intro a b htr
    have h1 : a.VBTableIndex = b.VBTableIndex := congrArg Prod.fst htr
    have h2 : a.VFPtrOffset = b.VFPtrOffset := congrArg (fun t => t.2.1) htr
    have h3 : a.Index = b.Index := congrArg (fun t => t.2.2) htr
    constructor <;> simp [MethodVFTableLocation.ltChecked, h1, h2, h3]
  · intro a b hpre
    by_cases hidx : a.VBTableIndex = b.VBTableIndex
    · by_cases hoff : a.VFPtrOffset = b.VFPtrOffset
      · by_cases hslot : a.Index = b.Index
        · right; right
          simp [locTriple, hidx, hoff, hslot]
        · have : a.Index < b.Index ∨ b.Index < a.Index := by omega
          rcases this with h | h
          · left; simp [MethodVFTableLocation.ltChecked, hidx, hoff, h]
          · right; left; simp [MethodVFTableLocation.ltChecked, hidx.symm, hoff.symm, h]
      · have : a.VFPtrOffset < b.VFPtrOffset ∨ b.VFPtrOffset < a.VFPtrOffset := by omega
        rcases this with h | h
        · left; simp [MethodVFTableLocation.ltChecked, hidx, h]
        · right; left; simp [MethodVFTableLocation.ltChecked, hidx.symm, h]
    · have hvb := hpre hidx
      have : a.VBTableIndex < b.VBTableIndex ∨ b.VBTableIndex < a.VBTableIndex := by omega
      rcases this with h | h
      · left
        rw [MethodVFTableLocation.ltChecked, if_pos hidx, if_pos hvb]
        simp [h]
      · right; left
        rw [MethodVFTableLocation.ltChecked, if_pos (Ne.symm hidx), if_pos (Ne.symm hvb)]
        simp [h]

/-- Witness for C8 at concrete pairs: an accepted unequal pair and an
equal-triple pair. -/
theorem methodVFTableLocation_lt_lexicographic_witness :
    (((⟨1, some 4, 0, 0⟩ : MethodVFTableLocation).VBTableIndex ≠
        (⟨2, some 6, 0, 0⟩ : MethodVFTableLocation).VBTableIndex →
      (⟨1, some 4, 0, 0⟩ : MethodVFTableLocation).VBase ≠
        (⟨2, some 6, 0, 0⟩ : MethodVFTableLocation).VBase) ∧
     MethodVFTableLocation.ltChecked ⟨1, some 4, 0, 0⟩ ⟨2, some 6, 0, 0⟩ =
       some (lexLtTriple (locTriple ⟨1, some 4, 0, 0⟩) (locTriple ⟨2, some 6, 0, 0⟩))) ∧
    (locTriple ⟨1, some 4, 7, 2⟩ = locTriple ⟨1, some 9, 7, 2⟩ ∧
     MethodVFTableLocation.ltChecked ⟨1, some 4, 7, 2⟩ ⟨1, some 9, 7, 2⟩ = some false ∧
     MethodVFTableLocation.ltChecked ⟨1, some 9, 7, 2⟩ ⟨1, some 4, 7, 2⟩ = some false) := by
  constructor
  · refine ⟨by decide, ?_⟩
    exact methodVFTableLocation_lt_lexicographic.1 ⟨1, some 4, 0, 0⟩ ⟨2, some 6, 0, 0⟩ (by decide)
  · refine ⟨by decide, ?_⟩
    exact methodVFTableLocation_lt_lexicographic.2.1 ⟨1, some 4, 7, 2⟩ ⟨1, some 9, 7, 2⟩ (by decide)

/-- A declaration in the nullability fixture: its name and the line it
occurs on in `test/SemaObjCXX/Inputs/nullability-pragmas-1.h`. -/
structure FixtureDecl where
  name : String
  line : Nat
deriving DecidableEq

/-- An `expected-error` annotation in the fixture: the line it sits on and
the single-quoted type names its message text contains, in order. -/
structure ExpectedDiag where
  line : Nat
  quotedTypes : List String
deriving DecidableEq

/-- Line of `#pragma clang assume_nonnull begin` in the fixture. -/
def pragmaAssumeNonnullBeginLine : Nat := 21

/-- Line of `#pragma clang assume_nonnull end` in the fixture. -/
def pragmaAssumeNonnullEndLine : Nat := 87

/-- `int *global_int_ptr;` (line 62). -/
def fixture_global_int_ptr : FixtureDecl := ⟨"global_int_ptr", 62⟩

/-- `typedef int *int_ptr_2;` (line 65). -/
def fixture_typedef_int_ptr_2 : FixtureDecl := ⟨"int_ptr_2", 65⟩

/-- `typedef int * *int_ptr_ptr;` (lines 67-68; starts on line 67). -/
def fixture_typedef_int_ptr_ptr : FixtureDecl := ⟨"int_ptr_ptr", 67⟩

/-- Expected diagnostic on the `global_int_ptr` initialization (line 71):
cannot initialize a variable of type quote float * unquote with an lvalue
of type quote int * __nonnull unquote. -/
def diag_global_int_ptr_use : ExpectedDiag := ⟨71, ["float *", "int * __nonnull"]⟩

/-- Expected diagnostic on the `int_ptr_2` initialization (line 74):
cannot initialize a variable of type quote float * unquote with an lvalue
of type quote int_ptr_2 unquote (aka quote int * unquote). -/
def diag_int_ptr_2_use : ExpectedDiag := ⟨74, ["float *", "int_ptr_2", "int *"]⟩

/-- Expected diagnostic on the `int_ptr_ptr` initialization (line 77):
lvalue of type quote int_ptr_ptr unquote (aka quote int ** unquote). -/
def diag_int_ptr_ptr_use : ExpectedDiag := ⟨77, ["int_ptr_ptr", "int **"]⟩

/-- Whether `pat` occurs as a contiguous run at the head of `s`. -/
def leadsWith : List Char → List Char → Bool
  | [], _ => true
  | _ :: _, [] => false
  | a :: as, b :: bs => a == b && leadsWith as bs

/-- Whether `pat` occurs as a contiguous run anywhere in `s`. -/
def containsRun (pat : List Char) : List Char → Bool
  | [] => pat.isEmpty
  | b :: bs => leadsWith pat (b :: bs) || containsRun pat bs

/-- Substring test on strings. -/
def strContains (pat s : String) : Bool := containsRun pat.toList s.toList

/-- C9 counterexample: the fixture's `int_ptr_2` and `int_ptr_ptr`
typedefs are declared at lines 65 and 67, *after* the `assume_nonnull
begin` pragma at line 21 — not before the region as the claim states. -/
theorem fixture_typedefs_not_declared_before_region :
    fixture_typedef_int_ptr_2.line = 65 ∧
    fixture_typedef_int_ptr_ptr.line = 67 ∧
    pragmaAssumeNonnullBeginLine = 21 ∧
    ¬(fixture_typedef_int_ptr_2.line < pragmaAssumeNonnullBeginLine) ∧
    ¬(fixture_typedef_int_ptr_ptr.line < pragmaAssumeNonnullBeginLine) := by
  decide

/-- C9 as amended: the fixture's pointer-valued typedefs `int_ptr_2` and
`int_ptr_ptr` are declared *inside* the non-null-assuming region (after
the `begin` pragma, before their uses and the `end` pragma), yet are still
diagnosed as nullable at the implicit narrowing conversions: the expected
messages at lines 74 and 77 name the typedef's still-nullable type and
mention no `__nonnull` type, while the sibling `global_int_ptr` case at
line 71 is diagnosed as `int * __nonnull`. -/
theorem fixture_typedef_non_retroactivity :
    (pragmaAssumeNonnullBeginLine < fixture_typedef_int_ptr_2.line ∧
     fixture_typedef_int_ptr_2.line < diag_int_ptr_2_use.line ∧
     diag_int_ptr_2_use.line < pragmaAssumeNonnullEndLine) ∧
    (pragmaAssumeNonnullBeginLine < fixture_typedef_int_ptr_ptr.line ∧
     fixture_typedef_int_ptr_ptr.line < diag_int_ptr_ptr_use.line ∧
     diag_int_ptr_ptr_use.line < pragmaAssumeNonnullEndLine) ∧
    (diag_int_ptr_2_use.quotedTypes.contains fixture_typedef_int_ptr_2.name = true ∧
     diag_int_ptr_2_use.quotedTypes.all (fun t => !strContains "__nonnull" t) = true) ∧
    (diag_int_ptr_ptr_use.quotedTypes.contains fixture_typedef_int_ptr_ptr.name = true ∧
     diag_int_ptr_ptr_use.quotedTypes.all (fun t => !strContains "__nonnull" t) = true) ∧
    (pragmaAssumeNonnullBeginLine < fixture_global_int_ptr.line ∧
     fixture_global_int_ptr.line < diag_global_int_ptr_use.line ∧
     diag_global_int_ptr_use.quotedTypes.contains "int * __nonnull" = true) := by
  decide
